import Mathlib

/-!
Shallow embedding of `pkg/store/instance.go` (lima's status-reconciliation
layer): the `Status` enum, the `Instance` record, the PID-file liveness probe
`ReadPIDFile`, the reconciliation pass `Inspect`, and the report formatter
`PrintInstances`.

External effects (filesystem reads, process signals, the host-agent RPC
client, the Go template engine, `units.RAMInBytes`/`units.BytesSize`,
`user.Current`) are modelled as explicit environment records of oracles;
the control flow of the Go functions is reproduced faithfully over those
oracles.
-/

set_option autoImplicit false

/-- Errors are modelled as their message strings (Go `error`). -/
abbrev Err := String

/-- Go: `type Status = string`. -/
abbrev Status := String

/-- Go: `StatusUnknown Status = ""`. -/
def StatusUnknown : Status := ""

/-- Go: `StatusBroken Status = "Broken"`. -/
def StatusBroken : Status := "Broken"

/-- Go: `StatusStopped Status = "Stopped"`. -/
def StatusStopped : Status := "Stopped"

/-- Go: `StatusRunning Status = "Running"`. -/
def StatusRunning : Status := "Running"

/-- Result of `os.ReadFile` on the PID file path: the file is absent
(`os.ErrNotExist`), the read fails otherwise, or it yields contents. -/
inductive ReadFileResult where
  | notExist
  | readErr (e : Err)
  | content (s : String)
  deriving DecidableEq

/-- Outcome of `proc.Signal(syscall.Signal(0))`: nil error, the process is
done (`os.ErrProcessDone`), permission denied (`os.ErrPermission`), or any
other error. -/
inductive SignalResult where
  | ok
  | processDone
  | permissionDenied
  | otherErr (e : Err)
  deriving DecidableEq

/-- Environment for one `ReadPIDFile` call: the file's state, the result of
`os.FindProcess` per pid, and the result of the zero-signal probe per pid. -/
structure PIDFileEnv where
  file : ReadFileResult
  findProcess : Int → Option Err
  signal : Int → SignalResult

/-- What a `ReadPIDFile` call returns, plus the state of the file afterwards
(the function deletes the file when the process is done). -/
structure PIDResult where
  pid : Int
  err : Option Err
  fileAfter : ReadFileResult
  deriving DecidableEq

/-- Go `strings.TrimSpace`: drop leading and trailing whitespace (the ASCII
whitespace classes; Go additionally trims some rare Unicode space code points
that never occur in PID files). -/
def goTrimSpace (s : String) : String :=
  ⟨((s.data.dropWhile Char.isWhitespace).reverse.dropWhile Char.isWhitespace).reverse⟩

/-- Go `strconv.Atoi`: optional sign, then decimal digits; anything else is
an error (machine-int overflow is not modelled). -/
def goAtoi (s : String) : Option Int :=
  match s.data with
  | [] => none
  | c :: rest =>
    let (neg, digits) :=
      if c = '-' then (true, rest)
      else if c = '+' then (false, rest)
      else (false, c :: rest)
    if digits.isEmpty then none
    else if digits.all Char.isDigit then
      let n : Nat := digits.foldl (fun acc d => acc * 10 + (d.toNat - Char.toNat '0')) 0
      some (if neg then -(n : Int) else (n : Int))
    else none

/-- The error text of a failed `strconv.Atoi`. -/
def atoiErr (s : String) : Err :=
  "strconv.Atoi: parsing \"" ++ s ++ "\": invalid syntax"

/-- Embeds `ReadPIDFile` (instance.go lines 175-204): returns 0 when the file
does not exist or the process has terminated (deleting the stale file in the
latter case); a permission error on the probe counts as the process being
alive. -/
def ReadPIDFile (env : PIDFileEnv) : PIDResult :=
  match env.file with
  | .notExist => ⟨0, none, env.file⟩
  | .readErr e => ⟨0, some e, env.file⟩
  | .content s =>
    match goAtoi (goTrimSpace s) with
    | none => ⟨0, some (atoiErr (goTrimSpace s)), env.file⟩
    | some pid =>
      match env.findProcess pid with
      | some e => ⟨0, some e, env.file⟩
      | none =>
        match env.signal pid with
        | .ok => ⟨pid, none, env.file⟩
        | .processDone => ⟨0, none, .notExist⟩
        | .permissionDenied => ⟨pid, none, env.file⟩
        | .otherErr e => ⟨0, some e, env.file⟩

/-- The fields of `limayaml.LimaYAML` consumed by `Inspect`, after the
pointer dereferences the Go code performs (`*y.Arch` etc.). `cpuType` is the
Go map as an association list; disks and networks are kept opaque as strings
since `Inspect` only copies them. -/
structure LimaYAML where
  arch : String
  vmType : String
  cpuType : List (String × String)
  cpus : Int
  memory : String
  disk : String
  additionalDisks : List String
  networks : List String
  sshLocalPort : Int
  message : String
  deriving DecidableEq

/-- Go map lookup with the zero-value default: `y.CPUType[*y.Arch]`. -/
def lookupDefault (m : List (String × String)) (k : String) : String :=
  match m.find? (fun p => p.1 == k) with
  | some p => p.2
  | none => ""

/-- The host-agent `Info` response; only `SSHLocalPort` is consumed. -/
structure Info where
  sshLocalPort : Int
  deriving DecidableEq

/-- Result of `LoadYAMLByFilePath`: the document is absent
(`os.ErrNotExist`), fails to load for another reason (malformed), or loads. -/
inductive LoadResult where
  | errNotExist (e : Err)
  | errOther (e : Err)
  | ok (y : LimaYAML)
  deriving DecidableEq

/-- Embeds the `Instance` struct (instance.go lines 36-54); every field
defaults to its Go zero value. -/
structure Instance where
  name : String := ""
  status : Status := StatusUnknown
  dir : String := ""
  vmType : String := ""
  arch : String := ""
  cpuType : String := ""
  cpus : Int := 0
  memory : Int := 0
  disk : Int := 0
  message : String := ""
  additionalDisks : List String := []
  networks : List String := []
  sshLocalPort : Int := 0
  hostAgentPID : Int := 0
  driverPID : Int := 0
  errors : List Err := []
  config : Option LimaYAML := none
  deriving DecidableEq

/-- Modelled from the spec: PID files and the control socket live "inside the
instance directory under well-known fixed names" (`pkg/store/filenames` is
not part of this slice). -/
def filenamesHostAgentSock : String := "ha.sock"

/-- Go `filepath.Join` for the two-component paths used here. -/
def joinPath (dir name : String) : String := dir ++ "/" ++ name

/-- Environment of one `Inspect` call: results of `InstanceDir` and
`LoadYAMLByFilePath`, the `units.RAMInBytes` size parser (`none` = parse
error), the two PID-file probe environments, the host-agent client
(`NewHostAgentClient` and the bounded-timeout `Info` query), and the Go
template engine for the message template (`tmplParse` is the result of
parsing a template string, `globalFields` the fallible part of
`AddGlobalFields`, `tmplExec` the result of executing the parsed template
against the instance data). -/
structure InspectEnv where
  instanceDir : Except Err String
  loadYAML : LoadResult
  ramInBytes : String → Option Int
  haPIDFile : PIDFileEnv
  driverPIDFile : PIDFileEnv
  haClientConnect : Except Err Unit
  haInfo : Except Err Info
  tmplParse : String → Option Err
  globalFields : Option Err
  tmplExec : String → Except Err String

/-- Instance.go lines 87-103: copy the configuration snapshot onto the
instance; a `RAMInBytes` failure leaves `memory`/`disk` at zero (the `err` is
only consulted on success). -/
def copyConfig (env : InspectEnv) (y : LimaYAML) (inst : Instance) : Instance :=
  let inst := { inst with
    config := some y
    arch := y.arch
    vmType := y.vmType
    cpuType := lookupDefault y.cpuType y.arch
    cpus := y.cpus }
  let inst :=
    match env.ramInBytes y.memory with
    | some memory => { inst with memory := memory }
    | none => inst
  let inst :=
    match env.ramInBytes y.disk with
    | some disk => { inst with disk := disk }
    | none => inst
  { inst with
    additionalDisks := y.additionalDisks
    networks := y.networks
    sshLocalPort := y.sshLocalPort }

/-- Instance.go lines 105-109: probe the host-agent PID file; a probe error
is accumulated and forces Broken. -/
def stepHostAgentPID (env : InspectEnv) (inst : Instance) : Instance :=
  let r := ReadPIDFile env.haPIDFile
  let inst := { inst with hostAgentPID := r.pid }
  match r.err with
  | some e =>
    { inst with
      status := StatusBroken
      errors := inst.errors ++ [e] }
  | none => inst

/-- Instance.go lines 111-128: when the host-agent PID is nonzero, connect to
the control socket and issue the Info query; connect or query failure is
accumulated and forces Broken, success overwrites `sshLocalPort`. -/
def stepHostAgentClient (env : InspectEnv) (instDir : String) (inst : Instance) : Instance :=
  if inst.hostAgentPID ≠ 0 then
    let haSock := joinPath instDir filenamesHostAgentSock
    match env.haClientConnect with
    | .error e =>
      { inst with
        status := StatusBroken
        errors := inst.errors ++ ["failed to connect to \"" ++ haSock ++ "\": " ++ e] }
    | .ok _ =>
      match env.haInfo with
      | .error e =>
        { inst with
          status := StatusBroken
          errors := inst.errors ++ ["failed to get Info from \"" ++ haSock ++ "\": " ++ e] }
      | .ok info => { inst with sshLocalPort := info.sshLocalPort }
  else inst

/-- Instance.go lines 130-134: probe the driver PID file; a probe error is
accumulated and forces Broken. -/
def stepDriverPID (env : InspectEnv) (inst : Instance) : Instance :=
  let r := ReadPIDFile env.driverPIDFile
  let inst := { inst with driverPID := r.pid }
  match r.err with
  | some e =>
    { inst with
      status := StatusBroken
      errors := inst.errors ++ [e] }
  | none => inst

/-- Instance.go lines 136-148: the final truth-table status assignment, run
only while the status is still the Unknown default. -/
def stepStatusTable (inst : Instance) : Instance :=
  if inst.status = StatusUnknown then
    if inst.hostAgentPID > 0 ∧ inst.driverPID > 0 then
      { inst with status := StatusRunning }
    else if inst.hostAgentPID = 0 ∧ inst.driverPID = 0 then
      { inst with status := StatusStopped }
    else if inst.hostAgentPID > 0 ∧ inst.driverPID = 0 then
      { inst with
        errors := inst.errors ++ ["host agent is running but driver is not"]
        status := StatusBroken }
    else
      { inst with
        errors := inst.errors ++ [inst.vmType ++ " driver is running but host agent is not"]
        status := StatusBroken }
  else inst

/-- Instance.go lines 150-169: parse and execute the configured message
template; any failure (parse, global fields, execution) is accumulated and
forces Broken, success sets `message`. -/
def stepMessage (env : InspectEnv) (y : LimaYAML) (inst : Instance) : Instance :=
  match env.tmplParse y.message with
  | some e =>
    { inst with
      errors := inst.errors ++
        ["message \"" ++ y.message ++ "\" is not a valid template: " ++ e]
      status := StatusBroken }
  | none =>
    match env.globalFields with
    | some e =>
      { inst with
        errors := inst.errors ++ ["cannot add global fields to instance data: " ++ e]
        status := StatusBroken }
    | none =>
      match env.tmplExec y.message with
      | .error e =>
        { inst with
          errors := inst.errors ++
            ["cannot execute template \"" ++ y.message ++ "\": " ++ e]
          status := StatusBroken }
      | .ok m => { inst with message := m }

/-- Embeds `Inspect` (instance.go lines 66-171): returns an error only when
the instance directory cannot be resolved or the configuration document is
absent; any other failure is accumulated on the returned instance. -/
def Inspect (env : InspectEnv) (instName : String) : Except Err Instance :=
  let inst : Instance := { name := instName, status := StatusUnknown }
  match env.instanceDir with
  | .error e => .error e
  | .ok instDir =>
    let inst := { inst with dir := instDir }
    match env.loadYAML with
    | .errNotExist e => .error e
    | .errOther e => .ok { inst with errors := inst.errors ++ [e] }
    | .ok y =>
      let inst := copyConfig env y inst
      let inst := stepHostAgentPID env inst
      let inst := stepHostAgentClient env instDir inst
      let inst := stepDriverPID env inst
      let inst := stepStatusTable inst
      let inst := stepMessage env y inst
      .ok inst

/-- Environment of one `PrintInstances` call: the Go template engine for the
format template (parse with `textutil.TemplateFuncMap`, then execution per
instance), the `user.Current` home-directory lookup, and `units.BytesSize`. -/
structure PrintEnv where
  tmplParseFmt : String → Option Err
  tmplExecFmt : String → Instance → Except Err String
  currentUserHome : Except Err String
  bytesSize : Int → String

/-- One table row (instance.go lines 253-269): tab-separated columns, the
home-directory prefix of `dir` collapsed to `~` (tabwriter column alignment
is not modelled; chunks are the writes in order). -/
def renderTableRow (homeDir : String) (bytesSize : Int → String) (i : Instance) : String :=
  let dir := if i.dir.startsWith homeDir then "~" ++ (i.dir.drop homeDir.length) else i.dir
  i.name ++ "\t" ++ i.status ++ "\t" ++ "127.0.0.1:" ++ toString i.sshLocalPort ++ "\t" ++
    i.vmType ++ "\t" ++ i.arch ++ "\t" ++ toString i.cpus ++ "\t" ++
    bytesSize i.memory ++ "\t" ++ bytesSize i.disk ++ "\t" ++ dir ++ "\n"

/-- The template loop of `PrintInstances` (instance.go lines 278-285): render
each instance then a newline; the first execution failure stops the loop and
is returned, with nothing written for the remaining instances. -/
def printLoop (exec : Instance → Except Err String) :
    List Instance → List String × Option Err
  | [] => ([], none)
  | i :: rest =>
    match exec i with
    | .error e => ([], some e)
    | .ok s =>
      let r := printLoop exec rest
      (s :: "\n" :: r.1, r.2)

/-- Embeds `PrintInstances` (instance.go lines 237-286). The output is the
ordered list of chunks written to `w`. For `table`, the header and rows go
through a tabwriter that is only flushed on success, so a `user.Current`
failure writes nothing; `json`/`yaml` are template shortcuts; any other
format string is parsed as a template and applied per instance. -/
def PrintInstances (env : PrintEnv) (instances : List Instance) (format : String) :
    List String × Option Err :=
  if format = "table" then
    match env.currentUserHome with
    | .error e => ([], some e)
    | .ok homeDir =>
      ("NAME\tSTATUS\tSSH\tVMTYPE\tARCH\tCPUS\tMEMORY\tDISK\tDIR\n" ::
        instances.map (renderTableRow homeDir env.bytesSize), none)
  else
    let fmt :=
      if format = "json" then "\x7b\x7bjson .\x7d\x7d"
      else if format = "yaml" then "\x7b\x7byaml .\x7d\x7d"
      else format
    match env.tmplParseFmt fmt with
    | some e => ([], some ("invalid go template: " ++ e))
    | none => printLoop (env.tmplExecFmt fmt) instances

/-- A sample configuration document used by concrete witnesses. -/
def sampleYaml : LimaYAML :=
  { arch := "x86_64"
    vmType := "qemu"
    cpuType := [("x86_64", "host")]
    cpus := 4
    memory := "4GiB"
    disk := "100GiB"
    additionalDisks := []
    networks := []
    sshLocalPort := 60022
    message := "hello" }

/-- A fully healthy sample environment used by concrete witnesses. -/
def sampleEnv : InspectEnv :=
  { instanceDir := .ok "/home/u/.lima/a"
    loadYAML := .ok sampleYaml
    ramInBytes := fun _ => some 42
    haPIDFile := ⟨.notExist, fun _ => none, fun _ => .ok⟩
    driverPIDFile := ⟨.notExist, fun _ => none, fun _ => .ok⟩
    haClientConnect := .ok ()
    haInfo := .ok ⟨60023⟩
    tmplParse := fun _ => none
    globalFields := none
    tmplExec := fun _ => .ok "rendered" }

/-- The connect-failure message accumulated by the host-agent client step. -/
def connectErrMsg (instDir e : String) : Err :=
  "failed to connect to \"" ++ joinPath instDir filenamesHostAgentSock ++ "\": " ++ e

/-- The Info-failure message accumulated by the host-agent client step. -/
def infoErrMsg (instDir e : String) : Err :=
  "failed to get Info from \"" ++ joinPath instDir filenamesHostAgentSock ++ "\": " ++ e

/-- A PID-file environment whose stale file names an exited process. -/
def staleEnv : PIDFileEnv := ⟨.content " 123\n", fun _ => none, fun _ => .processDone⟩

/-- A PID-file environment naming a live process we may not signal. -/
def permEnv : PIDFileEnv := ⟨.content "7", fun _ => none, fun _ => .permissionDenied⟩

/-- An environment whose instance directory cannot be resolved. -/
def envNoDir : InspectEnv := { sampleEnv with instanceDir := .error "no such instance dir" }

/-- An environment whose configuration document is absent. -/
def envNoYaml : InspectEnv := { sampleEnv with loadYAML := .errNotExist "lima.yaml not found" }

/-- An environment whose configuration document is present but malformed. -/
def envMalformed : InspectEnv := { sampleEnv with loadYAML := .errOther "malformed yaml" }

/-- An instance already marked Broken by an earlier reconciliation step. -/
def brokenInst : Instance := { name := "a", status := StatusBroken }

/-- An otherwise healthy environment whose size strings fail to parse. -/
def envNoParse : InspectEnv := { sampleEnv with ramInBytes := fun _ => none }

/-- An environment in which both the supervisor and the driver are alive and
the supervisor query succeeds. -/
def envRunning : InspectEnv :=
  { sampleEnv with
    haPIDFile := ⟨.content "2", fun _ => none, fun _ => .ok⟩
    driverPIDFile := ⟨.content "3", fun _ => none, fun _ => .ok⟩ }

/-- A print environment whose template renders an instance's name and fails
on the instance named "bad". -/
def printEnvW : PrintEnv :=
  { tmplParseFmt := fun _ => none
    tmplExecFmt := fun _ j => if j.name = "bad" then .error "boom" else .ok j.name
    currentUserHome := .ok "/home/u"
    bytesSize := fun _ => "1GiB" }

/-- An instance that renders fine under `printEnvW`. -/
def instGood : Instance := { name := "good" }

/-- An instance whose rendering fails under `printEnvW`. -/
def instBad : Instance := { name := "bad" }

example : ReadPIDFile ⟨.content " 123\n", fun _ => none, fun _ => .processDone⟩ =
    ⟨0, none, .notExist⟩ := by decide

example : ReadPIDFile ⟨.content "7", fun _ => none, fun _ => .permissionDenied⟩ =
    ⟨7, none, .content "7"⟩ := by decide

example : ReadPIDFile ⟨.notExist, fun _ => none, fun _ => .ok⟩ =
    ⟨0, none, .notExist⟩ := by decide

example :
    Inspect sampleEnv "a" = .ok
      { name := "a"
        status := StatusStopped
        dir := "/home/u/.lima/a"
        vmType := "qemu"
        arch := "x86_64"
        cpuType := "host"
        cpus := 4
        memory := 42
        disk := 42
        message := "rendered"
        additionalDisks := []
        networks := []
        sshLocalPort := 60022
        hostAgentPID := 0
        driverPID := 0
        errors := []
        config := some sampleYaml } := by rfl

example :
    Inspect { sampleEnv with loadYAML := .errOther "bad yaml" } "a" = .ok
      { name := "a"
        status := StatusUnknown
        dir := "/home/u/.lima/a"
        errors := ["bad yaml"] } := by rfl

theorem copyConfig_status (env : InspectEnv) (y : LimaYAML) (inst : Instance) :
    (copyConfig env y inst).status = inst.status := by
  unfold copyConfig
  cases env.ramInBytes y.memory <;> cases env.ramInBytes y.disk <;> rfl

theorem copyConfig_errors (env : InspectEnv) (y : LimaYAML) (inst : Instance) :
    (copyConfig env y inst).errors = inst.errors := by
  unfold copyConfig
  cases env.ramInBytes y.memory <;> cases env.ramInBytes y.disk <;> rfl

theorem copyConfig_name (env : InspectEnv) (y : LimaYAML) (inst : Instance) :
    (copyConfig env y inst).name = inst.name := by
  unfold copyConfig
  cases env.ramInBytes y.memory <;> cases env.ramInBytes y.disk <;> rfl

theorem copyConfig_dir (env : InspectEnv) (y : LimaYAML) (inst : Instance) :
    (copyConfig env y inst).dir = inst.dir := by
  unfold copyConfig
  cases env.ramInBytes y.memory <;> cases env.ramInBytes y.disk <;> rfl

theorem copyConfig_vmType (env : InspectEnv) (y : LimaYAML) (inst : Instance) :
    (copyConfig env y inst).vmType = y.vmType := by
  unfold copyConfig
  cases env.ramInBytes y.memory <;> cases env.ramInBytes y.disk <;> rfl

theorem copyConfig_sshLocalPort (env : InspectEnv) (y : LimaYAML) (inst : Instance) :
    (copyConfig env y inst).sshLocalPort = y.sshLocalPort := by
  unfold copyConfig
  cases env.ramInBytes y.memory <;> cases env.ramInBytes y.disk <;> rfl

theorem stepHostAgentPID_pid (env : InspectEnv) (inst : Instance) :
    (stepHostAgentPID env inst).hostAgentPID = (ReadPIDFile env.haPIDFile).pid := by
  simp only [stepHostAgentPID]
  cases h : (ReadPIDFile env.haPIDFile).err <;> simp [h]

theorem stepHostAgentPID_ok (env : InspectEnv) (inst : Instance)
    (h : (ReadPIDFile env.haPIDFile).err = none) :
    stepHostAgentPID env inst = { inst with hostAgentPID := (ReadPIDFile env.haPIDFile).pid } := by
  simp only [stepHostAgentPID]
  rw [h]

theorem stepHostAgentClient_zero (env : InspectEnv) (d : String) (inst : Instance)
    (h : inst.hostAgentPID = 0) :
    stepHostAgentClient env d inst = inst := by
  simp only [stepHostAgentClient]
  rw [h]
  simp

theorem stepHostAgentClient_ok (env : InspectEnv) (d : String) (inst : Instance) (p : Info)
    (hnz : inst.hostAgentPID ≠ 0) (hc : env.haClientConnect = .ok ())
    (hi : env.haInfo = .ok p) :
    stepHostAgentClient env d inst = { inst with sshLocalPort := p.sshLocalPort } := by
  simp only [stepHostAgentClient]
  rw [if_pos hnz, hc, hi]

theorem stepHostAgentClient_connectErr (env : InspectEnv) (d : String) (inst : Instance)
    (e : Err) (hnz : inst.hostAgentPID ≠ 0) (hc : env.haClientConnect = .error e) :
    stepHostAgentClient env d inst =
      { inst with
        status := StatusBroken
        errors := inst.errors ++ [connectErrMsg d e] } := by
  simp only [stepHostAgentClient]
  rw [if_pos hnz, hc]
  rfl

theorem stepHostAgentClient_infoErr (env : InspectEnv) (d : String) (inst : Instance)
    (e : Err) (hnz : inst.hostAgentPID ≠ 0) (hc : env.haClientConnect = .ok ())
    (hi : env.haInfo = .error e) :
    stepHostAgentClient env d inst =
      { inst with
        status := StatusBroken
        errors := inst.errors ++ [infoErrMsg d e] } := by
  simp only [stepHostAgentClient]
  rw [if_pos hnz, hc, hi]
  rfl

theorem stepHostAgentClient_broken (env : InspectEnv) (d : String) (inst : Instance)
    (hb : inst.status = StatusBroken) :
    (stepHostAgentClient env d inst).status = StatusBroken := by
  simp only [stepHostAgentClient]
  split
  · cases env.haClientConnect with
    | error e => rfl
    | ok u => cases env.haInfo with
      | error e => rfl
      | ok p => exact hb
  · exact hb

theorem stepHostAgentClient_errors_extend (env : InspectEnv) (d : String) (inst : Instance) :
    ∃ t, (stepHostAgentClient env d inst).errors = inst.errors ++ t := by
  simp only [stepHostAgentClient]
  split
  · cases env.haClientConnect with
    | error e => exact ⟨_, rfl⟩
    | ok u => cases env.haInfo with
      | error e => exact ⟨_, rfl⟩
      | ok p => exact ⟨[], by simp⟩
  · exact ⟨[], by simp⟩

theorem stepHostAgentClient_name (env : InspectEnv) (d : String) (inst : Instance) :
    (stepHostAgentClient env d inst).name = inst.name := by
  simp only [stepHostAgentClient]
  split
  · cases env.haClientConnect with
    | error e => rfl
    | ok u => cases env.haInfo with
      | error e => rfl
      | ok p => rfl
  · rfl

theorem stepHostAgentClient_dir (env : InspectEnv) (d : String) (inst : Instance) :
    (stepHostAgentClient env d inst).dir = inst.dir := by
  simp only [stepHostAgentClient]
  split
  · cases env.haClientConnect with
    | error e => rfl
    | ok u => cases env.haInfo with
      | error e => rfl
      | ok p => rfl
  · rfl

theorem stepHostAgentClient_hostAgentPID (env : InspectEnv) (d : String) (inst : Instance) :
    (stepHostAgentClient env d inst).hostAgentPID = inst.hostAgentPID := by
  simp only [stepHostAgentClient]
  split
  · cases env.haClientConnect with
    | error e => rfl
    | ok u => cases env.haInfo with
      | error e => rfl
      | ok p => rfl
  · rfl

theorem stepDriverPID_pid (env : InspectEnv) (inst : Instance) :
    (stepDriverPID env inst).driverPID = (ReadPIDFile env.driverPIDFile).pid := by
  simp only [stepDriverPID]
  cases h : (ReadPIDFile env.driverPIDFile).err <;> simp [h]

theorem stepDriverPID_ok (env : InspectEnv) (inst : Instance)
    (h : (ReadPIDFile env.driverPIDFile).err = none) :
    stepDriverPID env inst = { inst with driverPID := (ReadPIDFile env.driverPIDFile).pid } := by
  simp only [stepDriverPID]
  rw [h]

theorem stepDriverPID_broken (env : InspectEnv) (inst : Instance)
    (hb : inst.status = StatusBroken) :
    (stepDriverPID env inst).status = StatusBroken := by
  simp only [stepDriverPID]
  cases h : (ReadPIDFile env.driverPIDFile).err <;> simp [h, hb]

theorem stepDriverPID_errors_extend (env : InspectEnv) (inst : Instance) :
    ∃ t, (stepDriverPID env inst).errors = inst.errors ++ t := by
  simp only [stepDriverPID]
  cases h : (ReadPIDFile env.driverPIDFile).err with
  | none => exact ⟨[], by simp [h]⟩
  | some e => exact ⟨[e], by simp [h]⟩

theorem stepDriverPID_name (env : InspectEnv) (inst : Instance) :
    (stepDriverPID env inst).name = inst.name := by
  simp only [stepDriverPID]
  cases h : (ReadPIDFile env.driverPIDFile).err <;> simp [h]

theorem stepDriverPID_dir (env : InspectEnv) (inst : Instance) :
    (stepDriverPID env inst).dir = inst.dir := by
  simp only [stepDriverPID]
  cases h : (ReadPIDFile env.driverPIDFile).err <;> simp [h]

theorem stepStatusTable_not_unknown (inst : Instance)
    (h : inst.status ≠ StatusUnknown) :
    stepStatusTable inst = inst := by
  simp only [stepStatusTable]
  rw [if_neg h]

theorem stepStatusTable_running (inst : Instance)
    (hu : inst.status = StatusUnknown) (h1 : inst.hostAgentPID > 0)
    (h2 : inst.driverPID > 0) :
    stepStatusTable inst = { inst with status := StatusRunning } := by
  simp only [stepStatusTable]
  rw [if_pos hu, if_pos ⟨h1, h2⟩]

theorem stepStatusTable_stopped (inst : Instance)
    (hu : inst.status = StatusUnknown) (h1 : inst.hostAgentPID = 0)
    (h2 : inst.driverPID = 0) :
    stepStatusTable inst = { inst with status := StatusStopped } := by
  simp only [stepStatusTable]
  rw [if_pos hu, if_neg (by omega : ¬(inst.hostAgentPID > 0 ∧ inst.driverPID > 0)),
    if_pos ⟨h1, h2⟩]

theorem stepStatusTable_haOnly (inst : Instance)
    (hu : inst.status = StatusUnknown) (h1 : inst.hostAgentPID > 0)
    (h2 : inst.driverPID = 0) :
    stepStatusTable inst =
      { inst with
        errors := inst.errors ++ ["host agent is running but driver is not"]
        status := StatusBroken } := by
  simp only [stepStatusTable]
  rw [if_pos hu, if_neg (by omega : ¬(inst.hostAgentPID > 0 ∧ inst.driverPID > 0)),
    if_neg (by omega : ¬(inst.hostAgentPID = 0 ∧ inst.driverPID = 0)), if_pos ⟨h1, h2⟩]

theorem stepStatusTable_driverOnly (inst : Instance)
    (hu : inst.status = StatusUnknown) (h1 : inst.hostAgentPID = 0)
    (h2 : inst.driverPID > 0) :
    stepStatusTable inst =
      { inst with
        errors := inst.errors ++ [inst.vmType ++ " driver is running but host agent is not"]
        status := StatusBroken } := by
  simp only [stepStatusTable]
  rw [if_pos hu, if_neg (by omega : ¬(inst.hostAgentPID > 0 ∧ inst.driverPID > 0)),
    if_neg (by omega : ¬(inst.hostAgentPID = 0 ∧ inst.driverPID = 0)),
    if_neg (by omega : ¬(inst.hostAgentPID > 0 ∧ inst.driverPID = 0))]

theorem stepStatusTable_name (inst : Instance) :
    (stepStatusTable inst).name = inst.name := by
  simp only [stepStatusTable]
  split
  · split
    · rfl
    · split
      · rfl
      · split <;> rfl
  · rfl

theorem stepStatusTable_dir (inst : Instance) :
    (stepStatusTable inst).dir = inst.dir := by
  simp only [stepStatusTable]
  split
  · split
    · rfl
    · split
      · rfl
      · split <;> rfl
  · rfl

theorem stepStatusTable_errors_extend (inst : Instance) :
    ∃ t, (stepStatusTable inst).errors = inst.errors ++ t := by
  simp only [stepStatusTable]
  split
  · split
    · exact ⟨[], by simp⟩
    · split
      · exact ⟨[], by simp⟩
      · split
        · exact ⟨_, rfl⟩
        · exact ⟨_, rfl⟩
  · exact ⟨[], by simp⟩

theorem stepMessage_ok (env : InspectEnv) (y : LimaYAML) (inst : Instance) (m : String)
    (htp : env.tmplParse y.message = none) (hgf : env.globalFields = none)
    (hte : env.tmplExec y.message = .ok m) :
    stepMessage env y inst = { inst with message := m } := by
  simp only [stepMessage]
  rw [htp, hgf, hte]

theorem stepMessage_broken (env : InspectEnv) (y : LimaYAML) (inst : Instance)
    (hb : inst.status = StatusBroken) :
    (stepMessage env y inst).status = StatusBroken := by
  simp only [stepMessage]
  cases h1 : env.tmplParse y.message with
  | some e => simp
  | none =>
    cases h2 : env.globalFields with
    | some e => simp
    | none =>
      cases h3 : env.tmplExec y.message with
      | error e => simp
      | ok m => simp [hb]

theorem stepMessage_errors_extend (env : InspectEnv) (y : LimaYAML) (inst : Instance) :
    ∃ t, (stepMessage env y inst).errors = inst.errors ++ t := by
  simp only [stepMessage]
  cases h1 : env.tmplParse y.message with
  | some e =>
    exact ⟨["message \"" ++ y.message ++ "\" is not a valid template: " ++ e], by simp⟩
  | none =>
    cases h2 : env.globalFields with
    | some e =>
      exact ⟨["cannot add global fields to instance data: " ++ e], by simp⟩
    | none =>
      cases h3 : env.tmplExec y.message with
      | error e =>
        exact ⟨["cannot execute template \"" ++ y.message ++ "\": " ++ e], by simp⟩
      | ok m => exact ⟨[], by simp⟩

theorem stepMessage_name (env : InspectEnv) (y : LimaYAML) (inst : Instance) :
    (stepMessage env y inst).name = inst.name := by
  simp only [stepMessage]
  cases h1 : env.tmplParse y.message with
  | some e => simp
  | none =>
    cases h2 : env.globalFields with
    | some e => simp
    | none =>
      cases h3 : env.tmplExec y.message with
      | error e => simp
      | ok m => simp

theorem stepMessage_dir (env : InspectEnv) (y : LimaYAML) (inst : Instance) :
    (stepMessage env y inst).dir = inst.dir := by
  simp only [stepMessage]
  cases h1 : env.tmplParse y.message with
  | some e => simp
  | none =>
    cases h2 : env.globalFields with
    | some e => simp
    | none =>
      cases h3 : env.tmplExec y.message with
      | error e => simp
      | ok m => simp

theorem Inspect_ok_pipeline (env : InspectEnv) (instName d : String) (y : LimaYAML)
    (hd : env.instanceDir = .ok d) (hy : env.loadYAML = .ok y) :
    Inspect env instName = .ok (stepMessage env y (stepStatusTable (stepDriverPID env
      (stepHostAgentClient env d (stepHostAgentPID env (copyConfig env y
        { name := instName, status := StatusUnknown, dir := d })))))) := by
  simp only [Inspect]
  rw [hd, hy]

/-- C4: for a PID file whose referenced process has already exited,
`ReadPIDFile` returns 0 with no error and deletes the stale file; a
subsequent probe on the now-absent path again returns 0 with no error; and
that deletion is the only mutation `ReadPIDFile` ever performs on any
environment. -/
theorem readPIDFile_stale_deletes_and_idempotent (env : PIDFileEnv) (s : String) (pid : Int)
    (hf : env.file = .content s)
    (hp : goAtoi (goTrimSpace s) = some pid)
    (hfp : env.findProcess pid = none)
    (hs : env.signal pid = .processDone) :
    ReadPIDFile env = ⟨0, none, .notExist⟩ ∧
    ReadPIDFile { env with file := .notExist } = ⟨0, none, .notExist⟩ ∧
    ∀ env' : PIDFileEnv,
      (ReadPIDFile env').fileAfter = env'.file ∨
      ((ReadPIDFile env').fileAfter = .notExist ∧ (ReadPIDFile env').pid = 0 ∧
        (ReadPIDFile env').err = none ∧
        ∃ s2 p2, env'.file = .content s2 ∧ goAtoi (goTrimSpace s2) = some p2 ∧
          env'.findProcess p2 = none ∧ env'.signal p2 = .processDone) := by
  refine ⟨by simp [ReadPIDFile, hf, hp, hfp, hs], by simp [ReadPIDFile], ?_⟩
  intro env'
  cases hfile : env'.file with
  | notExist => left; simp [ReadPIDFile, hfile]
  | readErr e => left; simp [ReadPIDFile, hfile]
  | content s2 =>
    cases hp2 : goAtoi (goTrimSpace s2) with
    | none => left; simp [ReadPIDFile, hfile, hp2]
    | some p2 =>
      cases hfp2 : env'.findProcess p2 with
      | some e => left; simp [ReadPIDFile, hfile, hp2, hfp2]
      | none =>
        cases hs2 : env'.signal p2 with
        | ok => left; simp [ReadPIDFile, hfile, hp2, hfp2, hs2]
        | permissionDenied => left; simp [ReadPIDFile, hfile, hp2, hfp2, hs2]
        | otherErr e => left; simp [ReadPIDFile, hfile, hp2, hfp2, hs2]
        | processDone =>
          right
          refine ⟨?_, ?_, ?_, s2, p2, rfl, hp2, hfp2, hs2⟩ <;>
            simp [ReadPIDFile, hfile, hp2, hfp2, hs2]

/-- Witness for C4 at a concrete stale PID file containing " 123\n". -/
theorem readPIDFile_stale_deletes_and_idempotent_witness :
    goAtoi (goTrimSpace " 123\n") = some 123 ∧
    ReadPIDFile staleEnv = ⟨0, none, .notExist⟩ ∧
    ReadPIDFile { staleEnv with file := .notExist } = ⟨0, none, .notExist⟩ :=
  ⟨by decide,
   (readPIDFile_stale_deletes_and_idempotent staleEnv " 123\n" 123 rfl (by decide) rfl rfl).1,
   (readPIDFile_stale_deletes_and_idempotent staleEnv " 123\n" 123 rfl (by decide) rfl rfl).2.1⟩

/-- C5: for a PID file naming a live process owned by another principal
(the probe signal fails with a permission error), `ReadPIDFile` treats the
process as alive: it returns the nonzero parsed pid with no error and does
not touch the file. -/
theorem readPIDFile_permission_alive (env : PIDFileEnv) (s : String) (pid : Int)
    (hf : env.file = .content s)
    (hp : goAtoi (goTrimSpace s) = some pid)
    (hnz : pid ≠ 0)
    (hfp : env.findProcess pid = none)
    (hs : env.signal pid = .permissionDenied) :
    ReadPIDFile env = ⟨pid, none, env.file⟩ ∧ (ReadPIDFile env).pid ≠ 0 := by
  have h1 : ReadPIDFile env = ⟨pid, none, env.file⟩ := by
    simp [ReadPIDFile, hf, hp, hfp, hs]
  exact ⟨h1, by rw [h1]; exact hnz⟩

/-- Witness for C5 at a concrete PID file containing "7". -/
theorem readPIDFile_permission_alive_witness :
    goAtoi (goTrimSpace "7") = some 7 ∧ (7 : Int) ≠ 0 ∧
    ReadPIDFile permEnv = ⟨7, none, .content "7"⟩ :=
  ⟨by decide, by decide,
   (readPIDFile_permission_alive permEnv "7" 7 rfl (by decide) (by decide) rfl rfl).1⟩

/-- C3: when the instance directory cannot be resolved, or when the
configuration document is entirely absent, `Inspect` propagates the error and
returns no Instance value at all. -/
theorem inspect_fatal_existence_errors (env : InspectEnv) (instName e d : String) :
    (env.instanceDir = .error e → Inspect env instName = .error e) ∧
    (env.instanceDir = .ok d → env.loadYAML = .errNotExist e →
      Inspect env instName = .error e) := by
  constructor
  · intro h
    simp [Inspect, h]
  · intro h1 h2
    simp [Inspect, h1, h2]

/-- Witness for C3 at concrete failing environments. -/
theorem inspect_fatal_existence_errors_witness :
    Inspect envNoDir "a" = .error "no such instance dir" ∧
    Inspect envNoYaml "a" = .error "lima.yaml not found" :=
  ⟨(inspect_fatal_existence_errors envNoDir "a" "no such instance dir" "").1 rfl,
   (inspect_fatal_existence_errors envNoYaml "a" "lima.yaml not found" "/home/u/.lima/a").2 rfl rfl⟩

/-- C1 counterexample: on a malformed (present) configuration document,
`Inspect` returns the partially populated instance with a nil function error,
but its Status is the Unknown default, not Broken — refuting the claim that
the Status is forced to Broken and is never Unknown. -/
theorem inspect_malformed_not_broken_cex :
    Inspect envMalformed "a" =
      .ok { name := "a", dir := "/home/u/.lima/a", status := StatusUnknown,
            errors := ["malformed yaml"] } ∧
    StatusUnknown ≠ StatusBroken :=
  ⟨by rfl, by decide⟩

/-- C1 (amended): when loading the configuration document fails for any
reason other than absence, `Inspect` captures the failure as a soft error and
still returns the partially populated Instance (name and dir set) with a nil
function error, but leaves the Status at the Unknown default — it is not
forced to Broken in this path. -/
theorem inspect_malformed_soft_error (env : InspectEnv) (instName d e : String)
    (hd : env.instanceDir = .ok d) (hy : env.loadYAML = .errOther e) :
    Inspect env instName =
      .ok { name := instName, dir := d, status := StatusUnknown, errors := [e] } := by
  simp [Inspect, hd, hy]

/-- Witness for the amended C1 at a concrete malformed-document environment. -/
theorem inspect_malformed_soft_error_witness :
    Inspect envMalformed "b" =
      .ok { name := "b", dir := "/home/u/.lima/a", status := StatusUnknown,
            errors := ["malformed yaml"] } :=
  inspect_malformed_soft_error envMalformed "b" "/home/u/.lima/a" "malformed yaml" rfl rfl

theorem stepHostAgentPID_name (env : InspectEnv) (inst : Instance) :
    (stepHostAgentPID env inst).name = inst.name := by
  simp only [stepHostAgentPID]
  cases h : (ReadPIDFile env.haPIDFile).err <;> simp [h]

theorem stepHostAgentPID_dir (env : InspectEnv) (inst : Instance) :
    (stepHostAgentPID env inst).dir = inst.dir := by
  simp only [stepHostAgentPID]
  cases h : (ReadPIDFile env.haPIDFile).err <;> simp [h]

/-- C10: every non-nil Instance returned by `Inspect` — including the
partially populated one returned on a soft configuration-load failure — has
its `name` equal to the requested instance name and its `dir` equal to the
resolved instance directory, hence nonempty whenever the resolved directory
path is nonempty. -/
theorem inspect_name_dir_invariant (env : InspectEnv) (instName d : String) (inst : Instance)
    (hd : env.instanceDir = .ok d) (hne : d ≠ "")
    (hok : Inspect env instName = .ok inst) :
    inst.name = instName ∧ inst.dir = d ∧ inst.dir ≠ "" := by
  cases hy : env.loadYAML with
  | errNotExist e =>
    simp [Inspect, hd, hy] at hok
  | errOther e =>
    simp [Inspect, hd, hy] at hok
    refine ⟨?_, ?_, ?_⟩
    · rw [← hok]
    · rw [← hok]
    · rw [← hok]
      simpa using hne
  | ok y =>
    rw [Inspect_ok_pipeline env instName d y hd hy] at hok
    simp only [Except.ok.injEq] at hok
    subst hok
    refine ⟨?_, ?_, ?_⟩
    · rw [stepMessage_name, stepStatusTable_name, stepDriverPID_name,
        stepHostAgentClient_name, stepHostAgentPID_name, copyConfig_name]
    · rw [stepMessage_dir, stepStatusTable_dir, stepDriverPID_dir,
        stepHostAgentClient_dir, stepHostAgentPID_dir, copyConfig_dir]
    · rw [stepMessage_dir, stepStatusTable_dir, stepDriverPID_dir,
        stepHostAgentClient_dir, stepHostAgentPID_dir, copyConfig_dir]
      exact hne

/-- Witness for C10 at the healthy sample environment. -/
theorem inspect_name_dir_invariant_witness :
    ∃ inst, Inspect sampleEnv "a" = .ok inst ∧
      inst.name = "a" ∧ inst.dir = "/home/u/.lima/a" ∧ inst.dir ≠ "" := by
  have hok : Inspect sampleEnv "a" = .ok
      { name := "a"
        status := StatusStopped
        dir := "/home/u/.lima/a"
        vmType := "qemu"
        arch := "x86_64"
        cpuType := "host"
        cpus := 4
        memory := 42
        disk := 42
        message := "rendered"
        sshLocalPort := 60022
        config := some sampleYaml } := by rfl
  exact ⟨_, hok, inspect_name_dir_invariant sampleEnv "a" "/home/u/.lima/a" _
    rfl (by decide) hok⟩

/-- C8: once any reconciliation step has set the status to Broken, every
later step of `Inspect` still runs — the driver probe still records its pid
and each later step only appends to the error list in discovery order — but
no later step changes the status away from Broken, and the truth-table
assignment is skipped entirely whenever the status is no longer the Unknown
default. -/
theorem inspect_broken_monotone (env : InspectEnv) (d : String) (y : LimaYAML)
    (inst : Instance) (hb : inst.status = StatusBroken) :
    (stepHostAgentClient env d inst).status = StatusBroken ∧
    (stepDriverPID env inst).status = StatusBroken ∧
    stepStatusTable inst = inst ∧
    (stepMessage env y inst).status = StatusBroken ∧
    (∃ t, (stepHostAgentClient env d inst).errors = inst.errors ++ t) ∧
    (∃ t, (stepDriverPID env inst).errors = inst.errors ++ t) ∧
    (∃ t, (stepMessage env y inst).errors = inst.errors ++ t) ∧
    (stepDriverPID env inst).driverPID = (ReadPIDFile env.driverPIDFile).pid ∧
    (∀ i : Instance, i.status ≠ StatusUnknown → stepStatusTable i = i) :=
  ⟨stepHostAgentClient_broken env d inst hb,
   stepDriverPID_broken env inst hb,
   stepStatusTable_not_unknown inst (by rw [hb]; decide),
   stepMessage_broken env y inst hb,
   stepHostAgentClient_errors_extend env d inst,
   stepDriverPID_errors_extend env inst,
   stepMessage_errors_extend env y inst,
   stepDriverPID_pid env inst,
   fun i h => stepStatusTable_not_unknown i h⟩

/-- Witness for C8 at a concrete Broken instance and the sample environment. -/
theorem inspect_broken_monotone_witness :
    brokenInst.status = StatusBroken ∧
    (stepDriverPID sampleEnv brokenInst).status = StatusBroken ∧
    stepStatusTable brokenInst = brokenInst :=
  ⟨rfl,
   (inspect_broken_monotone sampleEnv "/home/u/.lima/a" sampleYaml brokenInst rfl).2.1,
   (inspect_broken_monotone sampleEnv "/home/u/.lima/a" sampleYaml brokenInst rfl).2.2.1⟩

theorem stepHostAgentPID_sshLocalPort (env : InspectEnv) (inst : Instance) :
    (stepHostAgentPID env inst).sshLocalPort = inst.sshLocalPort := by
  simp only [stepHostAgentPID]
  cases h : (ReadPIDFile env.haPIDFile).err <;> simp [h]

theorem stepDriverPID_sshLocalPort (env : InspectEnv) (inst : Instance) :
    (stepDriverPID env inst).sshLocalPort = inst.sshLocalPort := by
  simp only [stepDriverPID]
  cases h : (ReadPIDFile env.driverPIDFile).err <;> simp [h]

theorem stepStatusTable_sshLocalPort (inst : Instance) :
    (stepStatusTable inst).sshLocalPort = inst.sshLocalPort := by
  simp only [stepStatusTable]
  split
  · split
    · rfl
    · split
      · rfl
      · split <;> rfl
  · rfl

theorem stepMessage_sshLocalPort (env : InspectEnv) (y : LimaYAML) (inst : Instance) :
    (stepMessage env y inst).sshLocalPort = inst.sshLocalPort := by
  simp only [stepMessage]
  cases h1 : env.tmplParse y.message with
  | some e => simp
  | none =>
    cases h2 : env.globalFields with
    | some e => simp
    | none =>
      cases h3 : env.tmplExec y.message with
      | error e => simp
      | ok m => simp

/-- C6: a `units.RAMInBytes` parse failure on the memory or disk size string
is tolerated — the corresponding field stays at its zero value, no error is
appended, and the status is not forced to Broken by it (with every other
step healthy the instance comes back Stopped with an empty error list). -/
theorem inspect_size_parse_tolerated (env : InspectEnv) (instName d msg : String)
    (y : LimaYAML)
    (hd : env.instanceDir = .ok d)
    (hy : env.loadYAML = .ok y)
    (hm : env.ramInBytes y.memory = none)
    (hk : env.ramInBytes y.disk = none)
    (hhaerr : (ReadPIDFile env.haPIDFile).err = none)
    (hhapid : (ReadPIDFile env.haPIDFile).pid = 0)
    (hdverr : (ReadPIDFile env.driverPIDFile).err = none)
    (hdvpid : (ReadPIDFile env.driverPIDFile).pid = 0)
    (htp : env.tmplParse y.message = none)
    (hgf : env.globalFields = none)
    (hte : env.tmplExec y.message = .ok msg) :
    Inspect env instName = .ok
      { name := instName
        status := StatusStopped
        dir := d
        vmType := y.vmType
        arch := y.arch
        cpuType := lookupDefault y.cpuType y.arch
        cpus := y.cpus
        memory := 0
        disk := 0
        message := msg
        additionalDisks := y.additionalDisks
        networks := y.networks
        sshLocalPort := y.sshLocalPort
        hostAgentPID := 0
        driverPID := 0
        errors := []
        config := some y } := by
  rw [Inspect_ok_pipeline env instName d y hd hy]
  rw [show copyConfig env y { name := instName, status := StatusUnknown, dir := d } =
      ({ name := instName
         status := StatusUnknown
         dir := d
         vmType := y.vmType
         arch := y.arch
         cpuType := lookupDefault y.cpuType y.arch
         cpus := y.cpus
         additionalDisks := y.additionalDisks
         networks := y.networks
         sshLocalPort := y.sshLocalPort
         config := some y } : Instance) from by simp [copyConfig, hm, hk]]
  rw [stepHostAgentPID_ok env _ hhaerr, hhapid]
  rw [stepHostAgentClient_zero env d _ rfl]
  rw [stepDriverPID_ok env _ hdverr, hdvpid]
  rw [stepStatusTable_stopped _ rfl rfl rfl]
  rw [stepMessage_ok env y _ msg htp hgf hte]

/-- Witness for C6 at a concrete environment with unparsable size strings. -/
theorem inspect_size_parse_tolerated_witness :
    Inspect envNoParse "a" = .ok
      { name := "a"
        status := StatusStopped
        dir := "/home/u/.lima/a"
        vmType := "qemu"
        arch := "x86_64"
        cpuType := lookupDefault sampleYaml.cpuType sampleYaml.arch
        cpus := 4
        memory := 0
        disk := 0
        message := "rendered"
        additionalDisks := []
        networks := []
        sshLocalPort := 60022
        hostAgentPID := 0
        driverPID := 0
        errors := []
        config := some sampleYaml } :=
  inspect_size_parse_tolerated envNoParse "a" "/home/u/.lima/a" "rendered" sampleYaml
    rfl rfl rfl rfl rfl rfl rfl rfl rfl rfl rfl

/-- C2: when no earlier step has forced Broken (both probes error-free and
the supervisor query succeeding whenever it is attempted) and the message
template renders, the final status follows the truth table on the two
observed pids: both live gives Running, both zero gives Stopped, supervisor
only gives Broken with a descriptive error, driver only gives Broken with a
descriptive error naming the backend type. -/
theorem inspect_status_truth_table (env : InspectEnv) (instName d msg : String)
    (y : LimaYAML) (p : Info)
    (hd : env.instanceDir = .ok d)
    (hy : env.loadYAML = .ok y)
    (hhaerr : (ReadPIDFile env.haPIDFile).err = none)
    (hdverr : (ReadPIDFile env.driverPIDFile).err = none)
    (hcl : (ReadPIDFile env.haPIDFile).pid ≠ 0 →
      env.haClientConnect = .ok () ∧ env.haInfo = .ok p)
    (htp : env.tmplParse y.message = none)
    (hgf : env.globalFields = none)
    (hte : env.tmplExec y.message = .ok msg) :
    ∃ inst, Inspect env instName = .ok inst ∧
      ((ReadPIDFile env.haPIDFile).pid > 0 → (ReadPIDFile env.driverPIDFile).pid > 0 →
        inst.status = StatusRunning ∧ inst.errors = []) ∧
      ((ReadPIDFile env.haPIDFile).pid = 0 → (ReadPIDFile env.driverPIDFile).pid = 0 →
        inst.status = StatusStopped ∧ inst.errors = []) ∧
      ((ReadPIDFile env.haPIDFile).pid > 0 → (ReadPIDFile env.driverPIDFile).pid = 0 →
        inst.status = StatusBroken ∧
        inst.errors = ["host agent is running but driver is not"]) ∧
      ((ReadPIDFile env.haPIDFile).pid = 0 → (ReadPIDFile env.driverPIDFile).pid > 0 →
        inst.status = StatusBroken ∧
        inst.errors = [y.vmType ++ " driver is running but host agent is not"]) := by
  refine ⟨_, Inspect_ok_pipeline env instName d y hd hy, ?_, ?_, ?_, ?_⟩
  · intro h1 h2
    have hnz : (ReadPIDFile env.haPIDFile).pid ≠ 0 := by omega
    obtain ⟨hc, hi⟩ := hcl hnz
    rw [stepHostAgentPID_ok env _ hhaerr,
      stepHostAgentClient_ok env d _ p (by simpa using hnz) hc hi,
      stepDriverPID_ok env _ hdverr,
      stepStatusTable_running _ (by simp [copyConfig_status]) (by simpa using h1)
        (by simpa using h2),
      stepMessage_ok env y _ msg htp hgf hte]
    exact ⟨rfl, by simp [copyConfig_errors]⟩
  · intro h1 h2
    rw [stepHostAgentPID_ok env _ hhaerr,
      stepHostAgentClient_zero env d _ (by simpa using h1),
      stepDriverPID_ok env _ hdverr,
      stepStatusTable_stopped _ (by simp [copyConfig_status]) (by simpa using h1)
        (by simpa using h2),
      stepMessage_ok env y _ msg htp hgf hte]
    exact ⟨rfl, by simp [copyConfig_errors]⟩
  · intro h1 h2
    have hnz : (ReadPIDFile env.haPIDFile).pid ≠ 0 := by omega
    obtain ⟨hc, hi⟩ := hcl hnz
    rw [stepHostAgentPID_ok env _ hhaerr,
      stepHostAgentClient_ok env d _ p (by simpa using hnz) hc hi,
      stepDriverPID_ok env _ hdverr,
      stepStatusTable_haOnly _ (by simp [copyConfig_status]) (by simpa using h1)
        (by simpa using h2),
      stepMessage_ok env y _ msg htp hgf hte]
    exact ⟨rfl, by simp [copyConfig_errors]⟩
  · intro h1 h2
    rw [stepHostAgentPID_ok env _ hhaerr,
      stepHostAgentClient_zero env d _ (by simpa using h1),
      stepDriverPID_ok env _ hdverr,
      stepStatusTable_driverOnly _ (by simp [copyConfig_status]) (by simpa using h1)
        (by simpa using h2),
      stepMessage_ok env y _ msg htp hgf hte]
    exact ⟨rfl, by simp [copyConfig_errors, copyConfig_vmType]⟩

/-- Witness for C2 at a concrete both-alive environment (Running row). -/
theorem inspect_status_truth_table_witness :
    ∃ inst, Inspect envRunning "a" = .ok inst ∧
      inst.status = StatusRunning ∧ inst.errors = [] := by
  obtain ⟨inst, hok, h1, -, -, -⟩ :=
    inspect_status_truth_table envRunning "a" "/home/u/.lima/a" "rendered" sampleYaml
      ⟨60023⟩ rfl rfl (by decide) (by decide) (fun _ => ⟨rfl, rfl⟩) rfl rfl rfl
  exact ⟨inst, hok, (h1 (by decide) (by decide)).1, (h1 (by decide) (by decide)).2⟩

/-- C7: the supervisor Info query is attempted exactly when the supervisor
PID probe returned a nonzero id. On success the live port overwrites the
configured `sshLocalPort`; on connect or query failure the configured value
is kept, a descriptive error naming the socket path is accumulated, and the
status is forced to Broken; when the probed pid is zero, `Inspect` is
entirely independent of the client and Info oracles. -/
theorem inspect_supervisor_query (env : InspectEnv) (instName d : String) (y : LimaYAML)
    (hd : env.instanceDir = .ok d)
    (hy : env.loadYAML = .ok y)
    (hhaerr : (ReadPIDFile env.haPIDFile).err = none) :
    (∀ p : Info, (ReadPIDFile env.haPIDFile).pid ≠ 0 →
      env.haClientConnect = .ok () → env.haInfo = .ok p →
      ∃ inst, Inspect env instName = .ok inst ∧ inst.sshLocalPort = p.sshLocalPort) ∧
    (∀ e : Err, (ReadPIDFile env.haPIDFile).pid ≠ 0 →
      env.haClientConnect = .error e →
      ∃ inst, Inspect env instName = .ok inst ∧ inst.sshLocalPort = y.sshLocalPort ∧
        inst.status = StatusBroken ∧ connectErrMsg d e ∈ inst.errors) ∧
    (∀ e : Err, (ReadPIDFile env.haPIDFile).pid ≠ 0 →
      env.haClientConnect = .ok () → env.haInfo = .error e →
      ∃ inst, Inspect env instName = .ok inst ∧ inst.sshLocalPort = y.sshLocalPort ∧
        inst.status = StatusBroken ∧ infoErrMsg d e ∈ inst.errors) ∧
    ((ReadPIDFile env.haPIDFile).pid = 0 →
      ∀ (c : Except Err Unit) (i : Except Err Info),
        Inspect env instName =
          Inspect { env with haClientConnect := c, haInfo := i } instName) := by
  refine ⟨?_, ?_, ?_, ?_⟩
  · intro p hnz hc hi
    refine ⟨_, Inspect_ok_pipeline env instName d y hd hy, ?_⟩
    rw [stepMessage_sshLocalPort, stepStatusTable_sshLocalPort, stepDriverPID_sshLocalPort,
      stepHostAgentPID_ok env _ hhaerr,
      stepHostAgentClient_ok env d _ p (by simpa using hnz) hc hi]
  · intro e hnz hc
    refine ⟨_, Inspect_ok_pipeline env instName d y hd hy, ?_, ?_, ?_⟩
    · rw [stepMessage_sshLocalPort, stepStatusTable_sshLocalPort,
        stepDriverPID_sshLocalPort,
        stepHostAgentPID_ok env _ hhaerr,
        stepHostAgentClient_connectErr env d _ e (by simpa using hnz) hc]
      simp [copyConfig_sshLocalPort]
    · rw [stepHostAgentPID_ok env _ hhaerr,
        stepHostAgentClient_connectErr env d _ e (by simpa using hnz) hc]
      have hDbroken := stepDriverPID_broken env
        { copyConfig env y { name := instName, status := StatusUnknown, dir := d } with
          hostAgentPID := (ReadPIDFile env.haPIDFile).pid
          status := StatusBroken
          errors := (copyConfig env y
            { name := instName, status := StatusUnknown, dir := d }).errors ++
            [connectErrMsg d e] } rfl
      rw [stepStatusTable_not_unknown _ (by rw [hDbroken]; decide)]
      exact stepMessage_broken env y _ hDbroken
    · rw [stepHostAgentPID_ok env _ hhaerr,
        stepHostAgentClient_connectErr env d _ e (by simpa using hnz) hc]
      obtain ⟨t1, ht1⟩ := stepDriverPID_errors_extend env
        { copyConfig env y { name := instName, status := StatusUnknown, dir := d } with
          hostAgentPID := (ReadPIDFile env.haPIDFile).pid
          status := StatusBroken
          errors := (copyConfig env y
            { name := instName, status := StatusUnknown, dir := d }).errors ++
            [connectErrMsg d e] }
      obtain ⟨t2, ht2⟩ := stepStatusTable_errors_extend (stepDriverPID env
        { copyConfig env y { name := instName, status := StatusUnknown, dir := d } with
          hostAgentPID := (ReadPIDFile env.haPIDFile).pid
          status := StatusBroken
          errors := (copyConfig env y
            { name := instName, status := StatusUnknown, dir := d }).errors ++
            [connectErrMsg d e] })
      obtain ⟨t3, ht3⟩ := stepMessage_errors_extend env y (stepStatusTable (stepDriverPID env
        { copyConfig env y { name := instName, status := StatusUnknown, dir := d } with
          hostAgentPID := (ReadPIDFile env.haPIDFile).pid
          status := StatusBroken
          errors := (copyConfig env y
            { name := instName, status := StatusUnknown, dir := d }).errors ++
            [connectErrMsg d e] }))
      rw [ht3, ht2, ht1]
      simp
  · intro e hnz hc hi
    refine ⟨_, Inspect_ok_pipeline env instName d y hd hy, ?_, ?_, ?_⟩
    · rw [stepMessage_sshLocalPort, stepStatusTable_sshLocalPort,
        stepDriverPID_sshLocalPort,
        stepHostAgentPID_ok env _ hhaerr,
        stepHostAgentClient_infoErr env d _ e (by simpa using hnz) hc hi]
      simp [copyConfig_sshLocalPort]
    · rw [stepHostAgentPID_ok env _ hhaerr,
        stepHostAgentClient_infoErr env d _ e (by simpa using hnz) hc hi]
      have hDbroken := stepDriverPID_broken env
        { copyConfig env y { name := instName, status := StatusUnknown, dir := d } with
          hostAgentPID := (ReadPIDFile env.haPIDFile).pid
          status := StatusBroken
          errors := (copyConfig env y
            { name := instName, status := StatusUnknown, dir := d }).errors ++
            [infoErrMsg d e] } rfl
      rw [stepStatusTable_not_unknown _ (by rw [hDbroken]; decide)]
      exact stepMessage_broken env y _ hDbroken
    · rw [stepHostAgentPID_ok env _ hhaerr,
        stepHostAgentClient_infoErr env d _ e (by simpa using hnz) hc hi]
      obtain ⟨t1, ht1⟩ := stepDriverPID_errors_extend env
        { copyConfig env y { name := instName, status := StatusUnknown, dir := d } with
          hostAgentPID := (ReadPIDFile env.haPIDFile).pid
          status := StatusBroken
          errors := (copyConfig env y
            { name := instName, status := StatusUnknown, dir := d }).errors ++
            [infoErrMsg d e] }
      obtain ⟨t2, ht2⟩ := stepStatusTable_errors_extend (stepDriverPID env
        { copyConfig env y { name := instName, status := StatusUnknown, dir := d } with
          hostAgentPID := (ReadPIDFile env.haPIDFile).pid
          status := StatusBroken
          errors := (copyConfig env y
            { name := instName, status := StatusUnknown, dir := d }).errors ++
            [infoErrMsg d e] })
      obtain ⟨t3, ht3⟩ := stepMessage_errors_extend env y (stepStatusTable (stepDriverPID env
        { copyConfig env y { name := instName, status := StatusUnknown, dir := d } with
          hostAgentPID := (ReadPIDFile env.haPIDFile).pid
          status := StatusBroken
          errors := (copyConfig env y
            { name := instName, status := StatusUnknown, dir := d }).errors ++
            [infoErrMsg d e] }))
      rw [ht3, ht2, ht1]
      simp
  · intro h0 c i
    rw [Inspect_ok_pipeline env instName d y hd hy,
      Inspect_ok_pipeline { env with haClientConnect := c, haInfo := i } instName d y hd hy,
      stepHostAgentClient_zero env d _ (by rw [stepHostAgentPID_pid]; exact h0),
      stepHostAgentClient_zero { env with haClientConnect := c, haInfo := i } d _
        (by rw [stepHostAgentPID_pid]; exact h0)]
    rfl

/-- Witness for C7 at the both-alive environment: the live port 60023
supersedes the configured 60022. -/
theorem inspect_supervisor_query_witness :
    ∃ inst, Inspect envRunning "a" = .ok inst ∧ inst.sshLocalPort = 60023 :=
  (inspect_supervisor_query envRunning "a" "/home/u/.lima/a" sampleYaml rfl rfl
    (by decide)).1 ⟨60023⟩ (by decide) rfl rfl

theorem printLoop_all_ok (exec : Instance → Except Err String) (r : Instance → String) :
    ∀ l : List Instance, (∀ j ∈ l, exec j = .ok (r j)) →
      printLoop exec l = (l.flatMap (fun j => [r j, "\n"]), none) := by
  intro l
  induction l with
  | nil => intro h; simp [printLoop]
  | cons i rest ih =>
    intro h
    have hi : exec i = .ok (r i) := h i (by simp)
    have hrest := ih (fun j hj => h j (by simp [hj]))
    simp [printLoop, hi, hrest]

theorem printLoop_stops (exec : Instance → Except Err String) (r : Instance → String) :
    ∀ (pre : List Instance) (i : Instance) (post : List Instance) (e : Err),
      (∀ j ∈ pre, exec j = .ok (r j)) → exec i = .error e →
      printLoop exec (pre ++ i :: post) = (pre.flatMap (fun j => [r j, "\n"]), some e) := by
  intro pre
  induction pre with
  | nil => intro i post e _ hi; simp [printLoop, hi]
  | cons j rest ih =>
    intro i post e h hi
    have hj : exec j = .ok (r j) := h j (by simp)
    have hrest := ih i post e (fun k hk => h k (by simp [hk])) hi
    simp [printLoop, hj, hrest]

theorem PrintInstances_custom (env : PrintEnv) (l : List Instance) (format : String)
    (h1 : format ≠ "json") (h2 : format ≠ "yaml") (h3 : format ≠ "table")
    (hp : env.tmplParseFmt format = none) :
    PrintInstances env l format = printLoop (env.tmplExecFmt format) l := by
  simp only [PrintInstances]
  rw [if_neg h3, if_neg h1, if_neg h2, hp]

/-- C9: a format other than json, yaml, or table is applied as a template to
each instance in sequence with a newline after each rendering; the first
per-instance execution failure stops everything — the already-rendered
prefix stays written, nothing is produced for the failing or remaining
instances, and the error is returned. -/
theorem printInstances_custom_template (env : PrintEnv) (format : String)
    (h1 : format ≠ "json") (h2 : format ≠ "yaml") (h3 : format ≠ "table")
    (hp : env.tmplParseFmt format = none)
    (r : Instance → String) :
    (∀ l : List Instance, (∀ j ∈ l, env.tmplExecFmt format j = .ok (r j)) →
      PrintInstances env l format = (l.flatMap (fun j => [r j, "\n"]), none)) ∧
    (∀ (pre : List Instance) (i : Instance) (post : List Instance) (e : Err),
      (∀ j ∈ pre, env.tmplExecFmt format j = .ok (r j)) →
      env.tmplExecFmt format i = .error e →
      PrintInstances env (pre ++ i :: post) format =
        (pre.flatMap (fun j => [r j, "\n"]), some e)) := by
  constructor
  · intro l hl
    rw [PrintInstances_custom env l format h1 h2 h3 hp]
    exact printLoop_all_ok (env.tmplExecFmt format) r l hl
  · intro pre i post e hpre hi
    rw [PrintInstances_custom env (pre ++ i :: post) format h1 h2 h3 hp]
    exact printLoop_stops (env.tmplExecFmt format) r pre i post e hpre hi

/-- Witness for C9: the failing middle instance stops the output after the
first rendered instance and surfaces the error. -/
theorem printInstances_custom_template_witness :
    PrintInstances printEnvW [instGood, instBad, instGood] "row" =
      (["good", "\n"], some "boom") := by
  have h := (printInstances_custom_template printEnvW "row" (by decide) (by decide)
      (by decide) rfl (fun j => j.name)).2 [instGood] instBad [instGood] "boom"
    (by intro j hj; simp at hj; subst hj; rfl) rfl
  simpa using h
